import Mathlib

/-!
Verification of the reactive penguin-dashboard filter (`app/app.py`).

The program loads an in-memory table (`df = palmerpenguins.load_penguins()`),
holds a filter state (a mass slider `input.mass()` and a species checkbox
group `input.species()`), derives a filtered view via the reactive function
`filtered_df`, and renders sinks (`count`, `bill_length`, `bill_depth`,
`summary_statistics`, `length_depth`) that read the derived view.

Embedding choices:
- A pandas frame is a column list plus a row list (`Frame`); a row carries the
  palmerpenguins columns.  Numeric measurement cells may be missing (pandas
  NaN), modelled as `Option ℚ` with `none` for NaN.
- pandas comparison semantics: `x < m` is False when `x` is NaN (`massLt`).
- pandas `Series.mean()` skips NaN values and yields NaN on an empty series
  (`seriesMean`, with `none` for NaN).
- Python's `f"{x:.1f}"` rounds to one decimal with round-half-to-even ties
  (`roundTo1`); the rendered string wraps this number.
-/

namespace PenguinDash

/-- One observation row of the palmerpenguins dataset.  Measurement columns and
`sex` may be missing (pandas NaN / None), modelled with `Option`. -/
structure Row where
  species : String
  island : String
  bill_length_mm : Option ℚ
  bill_depth_mm : Option ℚ
  flipper_length_mm : Option ℚ
  body_mass_g : Option ℚ
  sex : Option String
  year : Int
deriving DecidableEq, Repr

/-- A pandas DataFrame: its column labels and its rows (order and multiplicity
matter, as in pandas). -/
structure Frame where
  cols : List String
  rows : List Row
deriving DecidableEq, Repr

/-- The column labels of the base dataset produced by
`palmerpenguins.load_penguins()`. -/
def penguinCols : List String :=
  ["species", "island", "bill_length_mm", "bill_depth_mm",
   "flipper_length_mm", "body_mass_g", "sex", "year"]

/-- pandas semantics of `series < m` cell-wise: a missing value (NaN) compares
False against anything; a present value compares with the rational order. -/
def massLt : Option ℚ → ℚ → Bool
  | none, _ => false
  | some x, m => decide (x < m)

/-- The current values of the two sidebar inputs: `input.species()` (the
checked species labels) and `input.mass()` (the slider value). -/
structure FilterState where
  selected_species : List String
  max_mass : ℚ
deriving DecidableEq, Repr

/-- `filtered_df` from `app/app.py`:
`filt_df = df[df["species"].isin(input.species())]` then
`filt_df = filt_df.loc[filt_df["body_mass_g"] < input.mass()]`.
Row filtering in pandas keeps the column labels and the relative order of the
surviving rows. -/
def filtered_df (df : Frame) (fs : FilterState) : Frame :=
  let filt1 : Frame :=
    { cols := df.cols,
      rows := df.rows.filter (fun r => decide (r.species ∈ fs.selected_species)) }
  let filt2 : Frame :=
    { cols := filt1.cols,
      rows := filt1.rows.filter (fun r => massLt r.body_mass_g fs.max_mass) }
  filt2

/-- The `count` value box: `filtered_df().shape[0]`, the row count of the
derived view. -/
def count (df : Frame) (fs : FilterState) : Nat :=
  (filtered_df df fs).rows.length

/-- The values of a pandas Series that are actually present (non-NaN). -/
def presentVals (xs : List (Option ℚ)) : List ℚ :=
  xs.filterMap id

/-- pandas `Series.mean()`: the arithmetic mean of the present (non-NaN)
values; NaN (here `none`) when no value is present. -/
def seriesMean (xs : List (Option ℚ)) : Option ℚ :=
  let vs := presentVals xs
  if vs.length = 0 then none else some (vs.sum / vs.length)

/-- Round-half-to-even to the nearest integer, as IEEE/Python formatting
does on ties. -/
def halfEvenRound (q : ℚ) : ℤ :=
  if Int.fract q < 1/2 then ⌊q⌋
  else if 1/2 < Int.fract q then ⌊q⌋ + 1
  else if Even ⌊q⌋ then ⌊q⌋ else ⌊q⌋ + 1

/-- Rounding to one decimal place, the numeric content of `f"{x:.1f}"`. -/
def roundTo1 (q : ℚ) : ℚ :=
  (halfEvenRound (q * 10) : ℚ) / 10

/-- The `bill_length` value box: the number rendered by
`f"{filtered_df()['bill_length_mm'].mean():.1f} mm"` (`none` when the mean is
NaN, rendered as the string "nan mm"). -/
def bill_length (df : Frame) (fs : FilterState) : Option ℚ :=
  (seriesMean ((filtered_df df fs).rows.map Row.bill_length_mm)).map roundTo1

/-- The `bill_depth` value box: the number rendered by
`f"{filtered_df()['bill_depth_mm'].mean():.1f} mm"`. -/
def bill_depth (df : Frame) (fs : FilterState) : Option ℚ :=
  (seriesMean ((filtered_df df fs).rows.map Row.bill_depth_mm)).map roundTo1

/-- A row of the data grid's fixed projection
`["species", "island", "bill_length_mm", "bill_depth_mm", "body_mass_g"]`. -/
structure GridRow where
  species : String
  island : String
  bill_length_mm : Option ℚ
  bill_depth_mm : Option ℚ
  body_mass_g : Option ℚ
deriving DecidableEq, Repr

/-- Projection of a dataset row onto the grid columns (`filtered_df()[cols]`
keeps each retained cell unchanged). -/
def projRow (r : Row) : GridRow :=
  { species := r.species, island := r.island,
    bill_length_mm := r.bill_length_mm, bill_depth_mm := r.bill_depth_mm,
    body_mass_g := r.body_mass_g }

/-- The grid frame rendered by `render.DataGrid`: column labels plus projected
rows. -/
structure GridFrame where
  cols : List String
  rows : List GridRow
deriving DecidableEq, Repr

/-- The `summary_statistics` sink:
`render.DataGrid(filtered_df()[cols], filters=True)` with
`cols = ["species", "island", "bill_length_mm", "bill_depth_mm", "body_mass_g"]`. -/
def summary_statistics (df : Frame) (fs : FilterState) : GridFrame :=
  { cols := ["species", "island", "bill_length_mm", "bill_depth_mm", "body_mass_g"],
    rows := (filtered_df df fs).rows.map projRow }

/-- Modelled from the spec: the memoization performed by the `@reactive.calc`
decorator (the decorator's implementation lives in the shiny runtime, not in
this repository).  Per the spec, the result is cached against the identity of
the current filter-state values, and a recomputation occurs only when the
filter state differs from the cached key.  `computeCount` counts actual
recomputations of the underlying function. -/
structure CacheState where
  cached : Option (FilterState × Frame)
  computeCount : Nat
deriving DecidableEq, Repr

/-- Run the underlying computation of `filtered_df` and store its result in
the cache, incrementing the recomputation counter. -/
def recompute (df : Frame) (st : CacheState) (fs : FilterState) : Frame × CacheState :=
  let v := filtered_df df fs
  (v, { cached := some (fs, v), computeCount := st.computeCount + 1 })

/-- Modelled from the spec: a read of the reactive `filtered_df()` under the
`@reactive.calc` cache.  A read whose filter state matches the cached key
returns the memoized table without recomputation; otherwise the underlying
filter runs once and the cache is refreshed. -/
def readFiltered (df : Frame) (st : CacheState) (fs : FilterState) : Frame × CacheState :=
  match st.cached with
  | some kv => if kv.1 = fs then (kv.2, st) else recompute df st fs
  | none => recompute df st fs

/-- The cache never stores a stale table: any cached entry is the filter of
the base dataset at the cached key. -/
def CacheValid (df : Frame) (st : CacheState) : Prop :=
  ∀ fs v, st.cached = some (fs, v) → v = filtered_df df fs

/-- The session events the runtime delivers: input changes and render
requests. -/
inductive Event where
  | setMass (m : ℚ)
  | setSpecies (s : List String)
  | renderCount
  | renderBillLength
  | renderBillDepth
  | renderPlot
  | renderGrid
deriving DecidableEq, Repr

/-- The per-session program state: the base dataset loaded once at startup,
the current filter state, and the reactive cache. -/
structure AppState where
  df : Frame
  fs : FilterState
  cache : CacheState
deriving DecidableEq, Repr

/-- Modelled from the spec: one step of the event loop.  Input events update
the filter state; every render event reads `filtered_df()` through the
reactive cache.  No event writes to the base dataset. -/
def step (st : AppState) (e : Event) : AppState :=
  match e with
  | .setMass m => { st with fs := { st.fs with max_mass := m } }
  | .setSpecies s => { st with fs := { st.fs with selected_species := s } }
  | _ => { st with cache := (readFiltered st.df st.cache st.fs).2 }

/-- The combined row predicate of the two-stage filter. -/
def keepRow (fs : FilterState) (r : Row) : Bool :=
  decide (r.species ∈ fs.selected_species) && massLt r.body_mass_g fs.max_mass

/-- A concrete Adelie observation used to instantiate universally quantified
theorems. -/
def rowAdelie : Row where
  species := "Adelie"
  island := "Torgersen"
  bill_length_mm := some 39
  bill_depth_mm := some 19
  flipper_length_mm := some 181
  body_mass_g := some 3750
  sex := some "male"
  year := 2007

/-- A concrete Gentoo observation carrying the dataset's largest mass
(6300 g). -/
def rowGentooMax : Row where
  species := "Gentoo"
  island := "Biscoe"
  bill_length_mm := some 50
  bill_depth_mm := some 16
  flipper_length_mm := some 216
  body_mass_g := some 6300
  sex := some "male"
  year := 2007

/-- A concrete observation with all measurements missing (row 4 of the real
dataset has exactly this shape: NaN in every measurement column). -/
def rowMissing : Row where
  species := "Adelie"
  island := "Torgersen"
  bill_length_mm := none
  bill_depth_mm := none
  flipper_length_mm := none
  body_mass_g := none
  sex := none
  year := 2007

/-- A concrete Chinstrap observation with the dataset's smallest mass
(2700 g). -/
def rowChinstrapMin : Row where
  species := "Chinstrap"
  island := "Dream"
  bill_length_mm := some 47
  bill_depth_mm := some 17
  flipper_length_mm := some 192
  body_mass_g := some 2700
  sex := some "female"
  year := 2008

/-- The default checkbox selection: all three species. -/
def allSpecies : List String := ["Adelie", "Gentoo", "Chinstrap"]

/-- A small concrete base dataset used to instantiate the theorems. -/
def dfSmall : Frame :=
  { cols := penguinCols, rows := [rowAdelie, rowGentooMax, rowChinstrapMin] }

/-- A concrete base dataset containing the dataset's maximal-mass row and a
missing-mass row. -/
def dfEdge : Frame :=
  { cols := penguinCols, rows := [rowGentooMax, rowMissing] }

theorem filtered_rows_eq (df : Frame) (fs : FilterState) :
    (filtered_df df fs).rows = df.rows.filter (keepRow fs) := by
  simp only [filtered_df, List.filter_filter, keepRow]
  congr 1
  funext r
  exact Bool.and_comm _ _

theorem filtered_cols_eq (df : Frame) (fs : FilterState) :
    (filtered_df df fs).cols = df.cols := rfl

theorem mem_filtered_rows (df : Frame) (fs : FilterState) (r : Row) :
    r ∈ (filtered_df df fs).rows ↔
      r ∈ df.rows ∧ r.species ∈ fs.selected_species ∧
        massLt r.body_mass_g fs.max_mass = true := by
  rw [filtered_rows_eq, List.mem_filter, keepRow]
  simp [and_assoc]

theorem filtered_rows_sublist (df : Frame) (fs : FilterState) :
    (filtered_df df fs).rows.Sublist df.rows := by
  rw [filtered_rows_eq]; exact List.filter_sublist df.rows

/-- C1: the derived view returned by `filtered_df` contains exactly the rows
of the base dataset whose species is among the selected species and whose
body mass is present and strictly below `max_mass`: membership in the result
is equivalent to membership in the base dataset together with the filter
predicate (soundness and completeness). -/
theorem C1_filter_sound_complete (df : Frame) (fs : FilterState) (r : Row) :
    r ∈ (filtered_df df fs).rows ↔
      r ∈ df.rows ∧ r.species ∈ fs.selected_species ∧
        massLt r.body_mass_g fs.max_mass = true :=
  mem_filtered_rows df fs r

/-- C3: the derived view's row count is monotone in the filter state:
lowering `max_mass` with the species fixed never increases the row count, and
shrinking the selected-species set with `max_mass` fixed never increases it. -/
theorem C3_monotone_row_count (df : Frame) (sel sel' : List String) (m m' : ℚ)
    (hm : m' ≤ m) (hs : ∀ x, x ∈ sel' → x ∈ sel) :
    (filtered_df df ⟨sel, m'⟩).rows.length ≤ (filtered_df df ⟨sel, m⟩).rows.length ∧
    (filtered_df df ⟨sel', m⟩).rows.length ≤ (filtered_df df ⟨sel, m⟩).rows.length := by
  rw [filtered_rows_eq, filtered_rows_eq, filtered_rows_eq]
  constructor
  · refine List.Sublist.length_le (List.monotone_filter_right df.rows ?_)
    intro r hr
    simp only [keepRow, Bool.and_eq_true] at hr ⊢
    refine ⟨hr.1, ?_⟩
    cases hmass : r.body_mass_g with
    | none => rw [hmass] at hr; exact absurd hr.2 (by simp [massLt])
    | some x =>
        rw [hmass] at hr
        simp only [massLt, decide_eq_true_eq] at hr ⊢
        exact lt_of_lt_of_le hr.2 hm
  · refine List.Sublist.length_le (List.monotone_filter_right df.rows ?_)
    intro r hr
    simp only [keepRow, Bool.and_eq_true, decide_eq_true_eq] at hr ⊢
    exact ⟨hs _ hr.1, hr.2⟩

/-- Witness for C3 at a concrete dataset and filter states. -/
theorem C3_monotone_row_count_witness :
    (3000 : ℚ) ≤ 6000 ∧ (∀ x, x ∈ ["Adelie"] → x ∈ ["Adelie", "Gentoo"]) ∧
    ((filtered_df dfSmall ⟨["Adelie", "Gentoo"], 3000⟩).rows.length ≤
      (filtered_df dfSmall ⟨["Adelie", "Gentoo"], 6000⟩).rows.length ∧
     (filtered_df dfSmall ⟨["Adelie"], 6000⟩).rows.length ≤
      (filtered_df dfSmall ⟨["Adelie", "Gentoo"], 6000⟩).rows.length) :=
  ⟨by norm_num, by decide,
   C3_monotone_row_count dfSmall ["Adelie", "Gentoo"] ["Adelie"] 6000 3000
     (by norm_num) (by decide)⟩

/-- C5: when `max_mass` is at or below every body mass observed in the base
dataset, the derived view is empty for any selected species, because the
strict comparison excludes rows whose mass equals the bound (and missing
masses never pass). -/
theorem C5_below_min_empty (df : Frame) (fs : FilterState)
    (hmin : ∀ r ∈ df.rows, ∀ x, r.body_mass_g = some x → fs.max_mass ≤ x) :
    (filtered_df df fs).rows = [] := by
  rw [filtered_rows_eq, List.filter_eq_nil_iff]
  intro r hr
  simp only [keepRow, Bool.and_eq_true, not_and]
  intro _
  cases hmass : r.body_mass_g with
  | none => simp [massLt]
  | some x =>
      simp only [massLt, decide_eq_true_eq]
      exact not_lt.mpr (hmin r hr x hmass)

/-- Witness for C5: the dataset's minimum mass (2700) as the slider bound
empties the view even with all species selected. -/
theorem C5_below_min_empty_witness :
    (∀ r ∈ dfSmall.rows, ∀ x, r.body_mass_g = some x → (2700 : ℚ) ≤ x) ∧
    (filtered_df dfSmall ⟨allSpecies, 2700⟩).rows = [] :=
  ⟨by decide, C5_below_min_empty dfSmall ⟨allSpecies, 2700⟩ (by decide)⟩

/-- C6: for every filter state the derived view keeps exactly the base
dataset's column labels, and its rows form a sublist of the base rows: the
filter removes rows only and passes every retained row through unchanged. -/
theorem C6_columns_preserved (df : Frame) (fs : FilterState) :
    (filtered_df df fs).cols = df.cols ∧
    (filtered_df df fs).rows.Sublist df.rows :=
  ⟨filtered_cols_eq df fs, filtered_rows_sublist df fs⟩

/-- Counterexample to C4 as stated: in `dfEdge` the maximum observed body
mass is 6300 and every species is selected, so with `max_mass = 6300`
(which is at the maximum observed mass) the claim demands the full dataset
back; but the strict comparison drops the 6300 g row and the missing-mass
row is dropped as well, so the derived view is empty, not the full
dataset. -/
theorem C4_counterexample :
    (∀ r ∈ dfEdge.rows, ∀ x, r.body_mass_g = some x → x ≤ 6300) ∧
    (∀ r ∈ dfEdge.rows, r.species ∈ allSpecies) ∧
    filtered_df dfEdge ⟨allSpecies, 6300⟩ ≠ dfEdge := by
  decide

/-- C4 (amended): whenever every row of the base dataset carries a present
body mass strictly below `max_mass` (in particular `max_mass` exceeds the
maximum observed mass and no mass is missing) and every row's species is
selected, the derived view equals the full base dataset. -/
theorem C4_full_retention (df : Frame) (fs : FilterState)
    (hmass : ∀ r ∈ df.rows, ∃ x, r.body_mass_g = some x ∧ x < fs.max_mass)
    (hsel : ∀ r ∈ df.rows, r.species ∈ fs.selected_species) :
    filtered_df df fs = df := by
  have hr : (filtered_df df fs).rows = df.rows := by
    rw [filtered_rows_eq]
    refine List.filter_eq_self.mpr ?_
    intro r hmem
    obtain ⟨x, hx, hlt⟩ := hmass r hmem
    simp [keepRow, hx, massLt, hsel r hmem, hlt]
  calc filtered_df df fs
      = ⟨(filtered_df df fs).cols, (filtered_df df fs).rows⟩ := rfl
    _ = ⟨df.cols, df.rows⟩ := by rw [filtered_cols_eq, hr]
    _ = df := rfl

/-- Witness for the amended C4: with `max_mass = 6301` (strictly above the
largest observed mass) and all species selected, `dfSmall` passes through
whole. -/
theorem C4_full_retention_witness :
    (∀ r ∈ dfSmall.rows, ∃ x, r.body_mass_g = some x ∧ x < (6301 : ℚ)) ∧
    (∀ r ∈ dfSmall.rows, r.species ∈ allSpecies) ∧
    filtered_df dfSmall ⟨allSpecies, 6301⟩ = dfSmall :=
  ⟨by decide, by decide,
   C4_full_retention dfSmall ⟨allSpecies, 6301⟩ (by decide) (by decide)⟩

/-- C2: under a valid `@reactive.calc` cache, a read yields exactly the
filter of the base dataset; an immediately repeated read with the same
filter state returns the identical table and the identical cache state (so
the recomputation counter does not move on the second read), and one read
performs at most one recomputation. -/
theorem C2_cache_idempotent (df : Frame) (st : CacheState) (fs : FilterState)
    (h : CacheValid df st) :
    (readFiltered df st fs).1 = filtered_df df fs ∧
    (readFiltered df (readFiltered df st fs).2 fs).1 = (readFiltered df st fs).1 ∧
    (readFiltered df (readFiltered df st fs).2 fs).2 = (readFiltered df st fs).2 ∧
    (readFiltered df st fs).2.computeCount ≤ st.computeCount + 1 := by
  cases hst : st.cached with
  | none =>
      simp [readFiltered, hst, recompute]
  | some kv =>
      by_cases hkey : kv.1 = fs
      · have hv : kv.2 = filtered_df df kv.1 := h kv.1 kv.2 (by rw [hst])
        simp [readFiltered, hst, hkey, hv, hkey ▸ hv]
      · simp [readFiltered, hst, hkey, recompute]

/-- Witness for C2: starting from the empty cache (trivially valid) over
`dfSmall`. -/
theorem C2_cache_idempotent_witness :
    CacheValid dfSmall ⟨none, 0⟩ ∧
    ((readFiltered dfSmall ⟨none, 0⟩ ⟨allSpecies, 6000⟩).1 =
        filtered_df dfSmall ⟨allSpecies, 6000⟩ ∧
      (readFiltered dfSmall (readFiltered dfSmall ⟨none, 0⟩ ⟨allSpecies, 6000⟩).2
          ⟨allSpecies, 6000⟩).1 =
        (readFiltered dfSmall ⟨none, 0⟩ ⟨allSpecies, 6000⟩).1 ∧
      (readFiltered dfSmall (readFiltered dfSmall ⟨none, 0⟩ ⟨allSpecies, 6000⟩).2
          ⟨allSpecies, 6000⟩).2 =
        (readFiltered dfSmall ⟨none, 0⟩ ⟨allSpecies, 6000⟩).2 ∧
      (readFiltered dfSmall ⟨none, 0⟩ ⟨allSpecies, 6000⟩).2.computeCount ≤ 0 + 1) := by
  have hv : CacheValid dfSmall ⟨none, 0⟩ := by
    intro fs v hEq
    simp at hEq
  exact ⟨hv, C2_cache_idempotent dfSmall ⟨none, 0⟩ ⟨allSpecies, 6000⟩ hv⟩

/-- C7: the base dataset is never mutated after load: any sequence of input
changes and render requests leaves the `df` component of the session state
exactly as loaded; filtering always builds a new table. -/
theorem C7_base_never_mutated (st : AppState) (es : List Event) :
    (es.foldl step st).df = st.df := by
  induction es generalizing st with
  | nil => rfl
  | cons e es ih =>
      rw [List.foldl_cons, ih]
      cases e <;> rfl

/-- C8: for every filter state the count metric is exactly the derived
view's row count, and whenever the derived view is nonempty with every bill
measurement present, the two mean metrics are the arithmetic means of
`bill_length_mm` and `bill_depth_mm` over exactly the derived view's rows,
rounded to one decimal place. -/
theorem C8_metrics_exact (df : Frame) (fs : FilterState) (lens deps : List ℚ)
    (hlen : (filtered_df df fs).rows.map Row.bill_length_mm = lens.map some)
    (hdep : (filtered_df df fs).rows.map Row.bill_depth_mm = deps.map some)
    (hne : (filtered_df df fs).rows ≠ []) :
    count df fs = (filtered_df df fs).rows.length ∧
    bill_length df fs = some (roundTo1 (lens.sum / lens.length)) ∧
    bill_depth df fs = some (roundTo1 (deps.sum / deps.length)) := by
  have hlens : lens.length = (filtered_df df fs).rows.length := by
    have := congrArg List.length hlen
    simpa using this.symm
  have hdeps : deps.length = (filtered_df df fs).rows.length := by
    have := congrArg List.length hdep
    simpa using this.symm
  have hnz : (filtered_df df fs).rows.length ≠ 0 := by
    simpa [List.length_eq_zero] using hne
  refine ⟨rfl, ?_, ?_⟩
  · rw [bill_length, hlen]
    simp [seriesMean, presentVals, List.filterMap_map, hlens, hnz]
  · rw [bill_depth, hdep]
    simp [seriesMean, presentVals, List.filterMap_map, hdeps, hnz]

/-- Witness for C8: filtering `dfSmall` to Adelie below 6000 g leaves the
single Adelie row; the metrics evaluate over exactly that row. -/
theorem C8_metrics_exact_witness :
    ((filtered_df dfSmall ⟨["Adelie"], 6000⟩).rows.map Row.bill_length_mm =
        [(39 : ℚ)].map some ∧
      (filtered_df dfSmall ⟨["Adelie"], 6000⟩).rows.map Row.bill_depth_mm =
        [(19 : ℚ)].map some ∧
      (filtered_df dfSmall ⟨["Adelie"], 6000⟩).rows ≠ []) ∧
    (count dfSmall ⟨["Adelie"], 6000⟩ =
        (filtered_df dfSmall ⟨["Adelie"], 6000⟩).rows.length ∧
      bill_length dfSmall ⟨["Adelie"], 6000⟩ =
        some (roundTo1 (List.sum [(39 : ℚ)] / List.length [(39 : ℚ)])) ∧
      bill_depth dfSmall ⟨["Adelie"], 6000⟩ =
        some (roundTo1 (List.sum [(19 : ℚ)] / List.length [(19 : ℚ)]))) :=
  ⟨⟨by decide, by decide, by decide⟩,
   C8_metrics_exact dfSmall ⟨["Adelie"], 6000⟩ [(39 : ℚ)] [(19 : ℚ)]
     (by decide) (by decide) (by decide)⟩

/-- C9: for every filter state the data grid renders the derived view
projected onto exactly the fixed columns species, island, bill length, bill
depth and body mass: its column list is that five-column list, it has one
row per derived-view row, and each grid row is the projection of the
corresponding derived-view row. -/
theorem C9_grid_projection (df : Frame) (fs : FilterState) :
    (summary_statistics df fs).cols =
      ["species", "island", "bill_length_mm", "bill_depth_mm", "body_mass_g"] ∧
    (summary_statistics df fs).rows = (filtered_df df fs).rows.map projRow ∧
    (summary_statistics df fs).rows.length = (filtered_df df fs).rows.length := by
  refine ⟨rfl, rfl, ?_⟩
  simp [summary_statistics]

/-- C10: a base row with a missing (NaN) body mass never reaches the derived
view, whatever the filter state; consequently a dataset containing such a
row always yields a derived view strictly smaller than the base dataset. -/
theorem C10_missing_mass_excluded (df : Frame) (fs : FilterState) (r0 : Row)
    (hr : r0 ∈ df.rows) (hm : r0.body_mass_g = none) :
    r0 ∉ (filtered_df df fs).rows ∧
    (filtered_df df fs).rows.length < df.rows.length := by
  have hnot : r0 ∉ (filtered_df df fs).rows := by
    intro hmem
    have hpred := (mem_filtered_rows df fs r0).mp hmem
    rw [hm] at hpred
    simp [massLt] at hpred
  refine ⟨hnot, ?_⟩
  have hsub := filtered_rows_sublist df fs
  rcases lt_or_eq_of_le hsub.length_le with hlt | heq
  · exact hlt
  · exact absurd (hsub.eq_of_length heq ▸ hr) hnot

/-- Witness for C10: the missing-mass row of `dfEdge` is dropped even with
all species selected and a huge mass bound, and the view is strictly
smaller than the base. -/
theorem C10_missing_mass_excluded_witness :
    (rowMissing ∈ dfEdge.rows ∧ rowMissing.body_mass_g = none) ∧
    (rowMissing ∉ (filtered_df dfEdge ⟨allSpecies, 100000⟩).rows ∧
      (filtered_df dfEdge ⟨allSpecies, 100000⟩).rows.length < dfEdge.rows.length) :=
  ⟨⟨by decide, rfl⟩,
   C10_missing_mass_excluded dfEdge ⟨allSpecies, 100000⟩ rowMissing (by decide) rfl⟩

end PenguinDash
